import Mathlib

/-!
# Verification of the `ts-code-contracts` library

Shallow embedding of `src/index.ts`. The given source file contains two
concatenated revisions of `index.ts`:

* revision 1 (lines 1-239 of the given file): initial design, with `useIf`
  already removed in the given snapshot, `asserts` carrying the default
  message `Failed Assertion`, `error` defaulting to `AssertionError`, and
  `unreachable` throwing a plain built-in `Error`;
* revision 2 (lines 240-508): the later design, with overloaded `error`
  defaulting to `IllegalStateError`, `unreachable` throwing `AssertionError`,
  and `asserts` taking `message?: string` with no default.

Functions whose bodies agree in both revisions are embedded once under their
source names.  Where the revisions differ, the later revision keeps the
source name and the earlier one is suffixed `V1`.

JavaScript runtime values are modelled by `JSVal` (enough of the value
universe to distinguish the two absence markers `null` / `undefined` from
falsy-but-present values).  A thrown JavaScript error is modelled by
`JSError`: its `name` field is the discriminator set by each error class
constructor, and `isContractError` records whether the object is an
`instanceof ContractError` (i.e. whether the class extends the abstract
base).  Every library function returns an `Outcome`: either a normal return
or a thrown error.  An omitted / `undefined` optional string parameter is
modelled as `none`.
-/

namespace TsCodeContracts

/-- A JavaScript runtime value, as far as the library can observe it:
the two absence markers, booleans, numbers, strings, and object references
identified by an id (so that returning the argument itself is expressible). -/
inductive JSVal where
  | vnull
  | vundefined
  | vbool (b : Bool)
  | vnum (n : Int)
  | vstr (s : String)
  | vobj (id : Nat)
deriving DecidableEq

/-- A thrown JavaScript error object: the `name` discriminator assigned by
the constructor, the `message` property (`none` when the `Error` constructor
received `undefined` and therefore set no message), and whether the object
is an `instanceof` the abstract `ContractError` base class. -/
structure JSError where
  name : String
  message : Option String
  isContractError : Bool
deriving DecidableEq

/-- `class PreconditionError extends ContractError` (src/index.ts lines 9-14):
passes the message to `super` and sets `this.name = 'PreconditionError'`. -/
def PreconditionError (message : Option String) : JSError :=
  ⟨"PreconditionError", message, true⟩

/-- `class IllegalStateError extends ContractError` (src/index.ts lines 19-24). -/
def IllegalStateError (message : Option String) : JSError :=
  ⟨"IllegalStateError", message, true⟩

/-- `class PostconditionError extends ContractError` (src/index.ts lines 29-34). -/
def PostconditionError (message : Option String) : JSError :=
  ⟨"PostconditionError", message, true⟩

/-- `class AssertionError extends ContractError` (src/index.ts lines 39-44). -/
def AssertionError (message : Option String) : JSError :=
  ⟨"AssertionError", message, true⟩

/-- The built-in JavaScript `Error` class: `name` is `Error` and it is not an
`instanceof ContractError`. -/
def plainError (message : Option String) : JSError :=
  ⟨"Error", message, false⟩

/-- Result of calling a library function: a normal return or a thrown error. -/
inductive Outcome (α : Type) where
  | ret (a : α)
  | thrown (e : JSError)
deriving DecidableEq

/-- Propagate a thrown error, transform a normal return. -/
def Outcome.map {α β : Type} (f : α → β) : Outcome α → Outcome β
  | .ret a => .ret (f a)
  | .thrown e => .thrown e

/-- JavaScript loose equality with `null` (`value == null`): true exactly for
the two absence markers `null` and `undefined`. -/
def jsLooseEqNull : JSVal → Bool
  | .vnull => true
  | .vundefined => true
  | _ => false

/-- `isDefined` (identical in both revisions, src/index.ts lines 195-197 and
441-443): `return value != null;`. -/
def isDefined (value : JSVal) : Bool :=
  !(jsLooseEqNull value)

/-- `requires` (identical in both revisions, src/index.ts lines 57-64 and
296-303): default message `Unmet precondition`, throws `PreconditionError`
when the condition is false. -/
def requires (condition : Bool) (message : Option String) : Outcome Unit :=
  let msg := message.getD "Unmet precondition"
  if !condition then .thrown (PreconditionError (some msg)) else .ret ()

/-- `checks` (identical in both revisions, src/index.ts lines 99-106 and
340-347): default message `Callee invariant violation`, throws
`IllegalStateError` when the condition is false. -/
def checks (condition : Bool) (message : Option String) : Outcome Unit :=
  let msg := message.getD "Callee invariant violation"
  if !condition then .thrown (IllegalStateError (some msg)) else .ret ()

/-- `ensures` (identical in both revisions, src/index.ts lines 143-150 and
386-393): default message `Unmet postcondition`, throws `PostconditionError`
when the condition is false. -/
def ensures (condition : Bool) (message : Option String) : Outcome Unit :=
  let msg := message.getD "Unmet postcondition"
  if !condition then .thrown (PostconditionError (some msg)) else .ret ()

/-- `asserts` of revision 1 (src/index.ts lines 178-185): default message
`Failed Assertion`, throws `AssertionError` when the condition is false. -/
def assertsV1 (condition : Bool) (message : Option String) : Outcome Unit :=
  let msg := message.getD "Failed Assertion"
  if !condition then .thrown (AssertionError (some msg)) else .ret ()

/-- `asserts` of revision 2 (src/index.ts lines 424-431): the parameter is
`message?: string` with NO default value, so when the condition is false the
`AssertionError` constructor receives the message argument as given
(`undefined` when omitted, hence no message is set). -/
def asserts (condition : Bool) (message : Option String) : Outcome Unit :=
  if !condition then .thrown (AssertionError message) else .ret ()

/-- `requiresNonNullish` (identical in both revisions, src/index.ts lines
77-83 and 318-324): defaults the message, calls
`requires(isDefined(value), message)`, then returns `value`. -/
def requiresNonNullish (value : JSVal) (message : Option String) : Outcome JSVal :=
  let msg := message.getD "Value must not be null or undefined"
  match requires (isDefined value) (some msg) with
  | .ret _ => .ret value
  | .thrown e => .thrown e

/-- `checksNonNullish` (identical in both revisions, src/index.ts lines
122-128 and 365-371): defaults the message, calls
`checks(isDefined(value), message)`, then returns `value`. -/
def checksNonNullish (value : JSVal) (message : Option String) : Outcome JSVal :=
  let msg := message.getD "Value must not be null or undefined"
  match checks (isDefined value) (some msg) with
  | .ret _ => .ret value
  | .thrown e => .thrown e

/-- `ensuresNonNullish` (identical in both revisions, src/index.ts lines
164-170 and 409-415): defaults the message, calls
`ensures(isDefined(value), message)`, then returns `value`. -/
def ensuresNonNullish (value : JSVal) (message : Option String) : Outcome JSVal :=
  let msg := message.getD "Value must not be null or undefined"
  match ensures (isDefined value) (some msg) with
  | .ret _ => .ret value
  | .thrown e => .thrown e

/-- One of the four exported concrete error classes, as a value that a caller
can pass to `error` as its `errorType` selector. -/
inductive ErrorClass where
  | precondition
  | illegalState
  | postcondition
  | assertion
deriving DecidableEq

/-- `new errorType(message)`: construct an instance of the selected exported
error class with the given message. -/
def newError : ErrorClass → Option String → JSError
  | .precondition, m => PreconditionError m
  | .illegalState, m => IllegalStateError m
  | .postcondition, m => PostconditionError m
  | .assertion, m => AssertionError m

/-- The runtime value of the first argument of `error`: omitted / `undefined`,
an explicit `null`, a string, or a reference to one of the four exported
error classes.  (Custom `Error` subclasses outside the library are not
modelled.) -/
inductive ErrorArg where
  | aundefined
  | anull
  | astr (s : String)
  | actor (k : ErrorClass)
deriving DecidableEq

/-- `error` of revision 2 (src/index.ts lines 479-486):

`throw errorType == null || typeof errorType === 'string' ? new
IllegalStateError(errorType) : new errorType(message);`

The loose test `errorType == null` is true exactly for `null` and
`undefined`, and `typeof errorType === 'string'` for strings, so those three
cases take the `new IllegalStateError(errorType)` branch and the class case
takes `new errorType(message)`.  In the first branch the value of
`errorType` itself is passed to the `Error` constructor, which per
ECMAScript sets no message for `undefined` and otherwise stringifies the
argument: a string stays itself and `null` becomes the string `null`. -/
def error (errorType : ErrorArg) (message : Option String) : Outcome Empty :=
  match errorType with
  | .aundefined => .thrown (IllegalStateError none)
  | .anull => .thrown (IllegalStateError (some "null"))
  | .astr s => .thrown (IllegalStateError (some s))
  | .actor k => .thrown (newError k message)

/-- `unreachable` of revision 1 (src/index.ts lines 237-239):
`throw new Error('Reached an unreachable case');` — a plain built-in
`Error`, not one of the four contract error classes. -/
def unreachableV1 (_value : JSVal) : Outcome Empty :=
  .thrown (plainError (some "Reached an unreachable case"))

/-- `unreachable` of revision 2 (src/index.ts lines 506-508):
`throw new AssertionError('Reached an unreachable case');`.  The parameter
models the runtime argument (statically typed `never`, but any value can
reach here through a cast). -/
def unreachable (_value : JSVal) : Outcome Empty :=
  .thrown (AssertionError (some "Reached an unreachable case"))

/-- Modelled from the spec: the revision of `unreachable` with the optional
message parameter is missing from the given source (the changelog under src/
records the feature `add optional message to unreachable`, but both source
revisions predate it).  Per spec section 4.6 the contract is
`fn(value, message = 'Reached an unreachable case')`, always raising
`AssertionError` with `message`. -/
def unreachableWithMessage (_value : JSVal) (message : Option String) : Outcome Empty :=
  .thrown (AssertionError (some (message.getD "Reached an unreachable case")))

/-- Modelled from the spec: `useIf` is missing from both revisions of
src/index.ts (the changelog records `remove useIf and improve error`); only
its tests (src/index.test.ts lines 77-108) and type tests reference it.  Per
spec section 4.7 the contract is
`useIf(predicate, contract = requires, contractMessage?) -> (value) -> value`:
the returned function evaluates the predicate on its input, invokes the
chosen contract function with the resulting boolean and the message, and
returns the input unchanged on success. -/
def useIf {α : Type} (pred : α → Bool)
    (contract : Bool → Option String → Outcome Unit)
    (contractMessage : Option String) : α → Outcome α :=
  fun value =>
    match contract (pred value) contractMessage with
    | .ret _ => .ret value
    | .thrown e => .thrown e

/-- The two-case variant type of the exhaustiveness example in
src/index.test.ts lines 116-119 (`enum MyEnum { A, B }`). -/
inductive MyEnum where
  | A
  | B
deriving DecidableEq

/-- `myFun` from src/index.test.ts lines 120-129: a switch over `MyEnum`
covering every declared case, with `unreachable(foo)` in the default branch.
Because both cases are handled, the match is exhaustive and the default
branch has no inhabitant left (the `never` typing of the TypeScript
original), so the embedding needs no default arm and `unreachable` is never
called. -/
def myFun : MyEnum → Outcome String
  | .A => .ret "a"
  | .B => .ret "b"

/-- One call to an exported function of the current (latest-revision) API,
with its arguments. -/
inductive Call where
  | creq (c : Bool) (m : Option String)
  | cchk (c : Bool) (m : Option String)
  | cens (c : Bool) (m : Option String)
  | cast (c : Bool) (m : Option String)
  | creqNN (v : JSVal) (m : Option String)
  | cchkNN (v : JSVal) (m : Option String)
  | censNN (v : JSVal) (m : Option String)
  | cisDefined (v : JSVal)
  | cerror (a : ErrorArg) (m : Option String)
  | cunreachable (v : JSVal)
deriving DecidableEq

/-- Execute one call.  A void TypeScript function returns `undefined`, a
boolean predicate returns its boolean, the non-nullish functions return
their value, and the diverging functions can only throw. -/
def runCall : Call → Outcome JSVal
  | .creq c m => (requires c m).map (fun _ => JSVal.vundefined)
  | .cchk c m => (checks c m).map (fun _ => JSVal.vundefined)
  | .cens c m => (ensures c m).map (fun _ => JSVal.vundefined)
  | .cast c m => (asserts c m).map (fun _ => JSVal.vundefined)
  | .creqNN v m => requiresNonNullish v m
  | .cchkNN v m => checksNonNullish v m
  | .censNN v m => ensuresNonNullish v m
  | .cisDefined v => .ret (JSVal.vbool (isDefined v))
  | .cerror a m => (error a m).map Empty.elim
  | .cunreachable v => (unreachable v).map Empty.elim

/-- Execute a sequence of calls in order, collecting each outcome. -/
def runTrace : List Call → List (Outcome JSVal)
  | [] => []
  | c :: cs => runCall c :: runTrace cs

/-- Specification-side composite for the delegation claim (spec section 4.3):
`{ contract(isDefined(value), message); return value }` — call the chosen
boolean contract function with `isDefined value` as the condition and the
given message, then return the value unchanged. -/
def delegatesTo (contract : Bool → Option String → Outcome Unit)
    (value : JSVal) (message : Option String) : Outcome JSVal :=
  match contract (isDefined value) message with
  | .ret _ => .ret value
  | .thrown e => .thrown e

/-- C1: for the boolean contract functions, a true condition returns normally
and a false condition raises the bound kind with the supplied message, else
the fixed default.  This holds for `requires`, `checks`, `ensures` and the
revision-1 `asserts`, but the revision-2 `asserts` (src/index.ts lines
424-431) has no default message: `asserts(false)` raises `AssertionError`
with no message instead of the default `Failed Assertion` required by the
claim, the README and src/index.test.ts line 44. -/
theorem c1_asserts_default_message_divergence :
    requires false none = .thrown (PreconditionError (some "Unmet precondition")) ∧
    checks false none = .thrown (IllegalStateError (some "Callee invariant violation")) ∧
    ensures false none = .thrown (PostconditionError (some "Unmet postcondition")) ∧
    assertsV1 false none = .thrown (AssertionError (some "Failed Assertion")) ∧
    asserts false none = .thrown (AssertionError none) ∧
    asserts false none ≠ .thrown (AssertionError (some "Failed Assertion")) ∧
    requires true none = .ret () ∧ checks true none = .ret () ∧
    ensures true none = .ret () ∧ asserts true none = .ret () ∧
    assertsV1 true none = .ret () ∧
    requires false (some "m") = .thrown (PreconditionError (some "m")) ∧
    checks false (some "m") = .thrown (IllegalStateError (some "m")) ∧
    ensures false (some "m") = .thrown (PostconditionError (some "m")) ∧
    asserts false (some "m") = .thrown (AssertionError (some "m")) := by
  decide

/-- C2: the `error` escape hatch never returns; with no arguments it raises
`IllegalStateError` with no message; with a single string argument it raises
`IllegalStateError` carrying that string as message (never interpreting the
string as a kind selector); with an explicit kind selector it raises exactly
that kind with the given message. -/
theorem c2_error_call_shapes :
    error .aundefined none = .thrown (IllegalStateError none) ∧
    (∀ s : String, error (.astr s) none = .thrown (IllegalStateError (some s))) ∧
    (∀ m : Option String,
      error (.actor .precondition) m = .thrown (PreconditionError m) ∧
      error (.actor .illegalState) m = .thrown (IllegalStateError m) ∧
      error (.actor .postcondition) m = .thrown (PostconditionError m) ∧
      error (.actor .assertion) m = .thrown (AssertionError m)) ∧
    (∀ (a : ErrorArg) (m : Option String), ∃ e, error a m = .thrown e) := by
  refine ⟨rfl, fun s => rfl, fun m => ⟨rfl, rfl, rfl, rfl⟩, fun a m => ?_⟩
  cases a <;> exact ⟨_, rfl⟩

/-- C3: `unreachable` always raises `AssertionError` at runtime regardless of
the value passed, with the optional message defaulting to
`Reached an unreachable case`; the latest source revision agrees with the
spec-modelled function at the default; and the exhaustive-switch example
returns normally for every covered case without reaching `unreachable`. -/
theorem c3_unreachable_always_raises :
    (∀ (v : JSVal) (m : Option String),
      unreachableWithMessage v m =
        .thrown (AssertionError (some (m.getD "Reached an unreachable case")))) ∧
    (∀ v : JSVal, unreachable v = unreachableWithMessage v none) ∧
    myFun .A = .ret "a" ∧ myFun .B = .ret "b" :=
  ⟨fun _ _ => rfl, fun _ => rfl, rfl, rfl⟩

/-- C4: each non-nullish function raises its bound kind with the message
`Value must not be null or undefined` (or the supplied message) on the two
absence markers, and returns the value itself unchanged otherwise. -/
theorem c4_nonNullish_contracts :
    ∀ (v : JSVal) (m : Option String),
      ((v = .vnull ∨ v = .vundefined) →
        requiresNonNullish v m =
          .thrown (PreconditionError (some (m.getD "Value must not be null or undefined"))) ∧
        checksNonNullish v m =
          .thrown (IllegalStateError (some (m.getD "Value must not be null or undefined"))) ∧
        ensuresNonNullish v m =
          .thrown (PostconditionError (some (m.getD "Value must not be null or undefined")))) ∧
      (¬(v = .vnull ∨ v = .vundefined) →
        requiresNonNullish v m = .ret v ∧
        checksNonNullish v m = .ret v ∧
        ensuresNonNullish v m = .ret v) := by
  intro v m
  constructor
  · rintro (rfl | rfl) <;> exact ⟨rfl, rfl, rfl⟩
  · intro h
    cases v <;> simp_all [requiresNonNullish, checksNonNullish, ensuresNonNullish,
      requires, checks, ensures, isDefined, jsLooseEqNull]

/-- Witness for C4 at concrete inputs: `requiresNonNullish(null)` raises
`PreconditionError` with the default message, and
`requiresNonNullish('hi')` returns `'hi'`. -/
theorem c4_nonNullish_witness :
    requiresNonNullish .vnull none =
      .thrown (PreconditionError (some "Value must not be null or undefined")) ∧
    requiresNonNullish (.vstr "hi") none = .ret (.vstr "hi") :=
  ⟨((c4_nonNullish_contracts .vnull none).1 (Or.inl rfl)).1,
   ((c4_nonNullish_contracts (.vstr "hi") none).2 (by decide)).1⟩

/-- C5: each non-nullish function is observationally equivalent to calling
the matching boolean contract function with `isDefined value` as the
condition and the same message, then returning the value; with the message
omitted, the delegation happens with the defaulted message
`Value must not be null or undefined`. -/
theorem c5_nonNullish_delegation :
    ∀ (v : JSVal) (s : String),
      requiresNonNullish v (some s) = delegatesTo requires v (some s) ∧
      checksNonNullish v (some s) = delegatesTo checks v (some s) ∧
      ensuresNonNullish v (some s) = delegatesTo ensures v (some s) ∧
      requiresNonNullish v none =
        delegatesTo requires v (some "Value must not be null or undefined") ∧
      checksNonNullish v none =
        delegatesTo checks v (some "Value must not be null or undefined") ∧
      ensuresNonNullish v none =
        delegatesTo ensures v (some "Value must not be null or undefined") :=
  fun _ _ => ⟨rfl, rfl, rfl, rfl, rfl, rfl⟩

/-- C6: `isDefined` returns false exactly on the two absence markers, and
true on every other value, including the falsy-but-present empty string,
zero and boolean false. -/
theorem c6_isDefined_absence :
    (∀ v : JSVal, isDefined v = false ↔ (v = .vnull ∨ v = .vundefined)) ∧
    isDefined (.vstr "") = true ∧ isDefined (.vnum 0) = true ∧
    isDefined (.vbool false) = true := by
  refine ⟨fun v => ?_, rfl, rfl, rfl⟩
  cases v <;> simp [isDefined, jsLooseEqNull]

/-- C7: the revision-1 `unreachable` (src/index.ts lines 237-239) raises a
plain built-in `Error` that is not an `instanceof ContractError` and not one
of the four concrete kinds — violating the taxonomy invariant (fixed in the
later revision per the changelog bug fix); every function of the latest
revision raises only the four `ContractError` kinds, whose name
discriminators are pairwise distinct. -/
theorem c7_error_taxonomy_divergence :
    (∀ v : JSVal,
      unreachableV1 v = .thrown (plainError (some "Reached an unreachable case"))) ∧
    (plainError (some "Reached an unreachable case")).isContractError = false ∧
    (plainError (some "Reached an unreachable case")).name = "Error" ∧
    (∀ (c : Call) (e : JSError), runCall c = .thrown e →
      e.isContractError = true ∧
      (e.name = "PreconditionError" ∨ e.name = "IllegalStateError" ∨
       e.name = "PostconditionError" ∨ e.name = "AssertionError")) ∧
    (PreconditionError none ≠ IllegalStateError none ∧
     PreconditionError none ≠ PostconditionError none ∧
     PreconditionError none ≠ AssertionError none ∧
     IllegalStateError none ≠ PostconditionError none ∧
     IllegalStateError none ≠ AssertionError none ∧
     PostconditionError none ≠ AssertionError none) := by
  refine ⟨fun _ => rfl, rfl, rfl, ?_, by decide⟩
  intro c e h
  cases c with
  | creq b m =>
    cases b <;> simp_all [runCall, Outcome.map, requires, PreconditionError]
    subst h
    exact ⟨rfl, Or.inl rfl⟩
  | cchk b m =>
    cases b <;> simp_all [runCall, Outcome.map, checks, IllegalStateError]
    subst h
    exact ⟨rfl, Or.inr (Or.inl rfl)⟩
  | cens b m =>
    cases b <;> simp_all [runCall, Outcome.map, ensures, PostconditionError]
    subst h
    exact ⟨rfl, Or.inr (Or.inr (Or.inl rfl))⟩
  | cast b m =>
    cases b <;> simp_all [runCall, Outcome.map, asserts, AssertionError]
    subst h
    exact ⟨rfl, Or.inr (Or.inr (Or.inr rfl))⟩
  | creqNN v m =>
    cases v <;> simp_all [runCall, requiresNonNullish, requires,
      isDefined, jsLooseEqNull, PreconditionError] <;>
      (subst h; exact ⟨rfl, Or.inl rfl⟩)
  | cchkNN v m =>
    cases v <;> simp_all [runCall, checksNonNullish, checks,
      isDefined, jsLooseEqNull, IllegalStateError] <;>
      (subst h; exact ⟨rfl, Or.inr (Or.inl rfl)⟩)
  | censNN v m =>
    cases v <;> simp_all [runCall, ensuresNonNullish, ensures,
      isDefined, jsLooseEqNull, PostconditionError] <;>
      (subst h; exact ⟨rfl, Or.inr (Or.inr (Or.inl rfl))⟩)
  | cisDefined v => simp_all [runCall]
  | cerror a m =>
    cases a with
    | aundefined =>
      simp_all [runCall, error, Outcome.map, IllegalStateError]
      subst h; exact ⟨rfl, Or.inr (Or.inl rfl)⟩
    | anull =>
      simp_all [runCall, error, Outcome.map, IllegalStateError]
      subst h; exact ⟨rfl, Or.inr (Or.inl rfl)⟩
    | astr s =>
      simp_all [runCall, error, Outcome.map, IllegalStateError]
      subst h; exact ⟨rfl, Or.inr (Or.inl rfl)⟩
    | actor k =>
      cases k with
      | precondition =>
        simp_all [runCall, error, Outcome.map, newError, PreconditionError]
        subst h; exact ⟨rfl, Or.inl rfl⟩
      | illegalState =>
        simp_all [runCall, error, Outcome.map, newError, IllegalStateError]
        subst h; exact ⟨rfl, Or.inr (Or.inl rfl)⟩
      | postcondition =>
        simp_all [runCall, error, Outcome.map, newError, PostconditionError]
        subst h; exact ⟨rfl, Or.inr (Or.inr (Or.inl rfl))⟩
      | assertion =>
        simp_all [runCall, error, Outcome.map, newError, AssertionError]
        subst h; exact ⟨rfl, Or.inr (Or.inr (Or.inr rfl))⟩
  | cunreachable v =>
    simp_all [runCall, unreachable, Outcome.map, AssertionError]
    subst h; exact ⟨rfl, Or.inr (Or.inr (Or.inr rfl))⟩

/-- Witness for C7 at concrete inputs: the revision-1 `unreachable` raises
the plain error, and the error raised by `requires(false)` is a
`ContractError` with one of the four discriminators. -/
theorem c7_error_taxonomy_witness :
    unreachableV1 .vnull = .thrown (plainError (some "Reached an unreachable case")) ∧
    ((PreconditionError (some "Unmet precondition")).isContractError = true ∧
      ((PreconditionError (some "Unmet precondition")).name = "PreconditionError" ∨
       (PreconditionError (some "Unmet precondition")).name = "IllegalStateError" ∨
       (PreconditionError (some "Unmet precondition")).name = "PostconditionError" ∨
       (PreconditionError (some "Unmet precondition")).name = "AssertionError")) :=
  ⟨c7_error_taxonomy_divergence.1 .vnull,
   c7_error_taxonomy_divergence.2.2.2.1 (Call.creq false none)
     (PreconditionError (some "Unmet precondition")) rfl⟩

/-- C8: `useIf` applied to a predicate, a contract function and a message
returns a function that returns its input unchanged when the predicate
holds, and otherwise raises the chosen contract function's bound kind with
the supplied message or that contract's default. -/
theorem c8_useIf_combinator :
    ∀ (α : Type) (pred : α → Bool) (m : Option String) (v : α),
      (pred v = true →
        useIf pred requires m v = .ret v ∧
        useIf pred checks m v = .ret v ∧
        useIf pred ensures m v = .ret v ∧
        useIf pred assertsV1 m v = .ret v) ∧
      (pred v = false →
        useIf pred requires m v =
          .thrown (PreconditionError (some (m.getD "Unmet precondition"))) ∧
        useIf pred checks m v =
          .thrown (IllegalStateError (some (m.getD "Callee invariant violation"))) ∧
        useIf pred ensures m v =
          .thrown (PostconditionError (some (m.getD "Unmet postcondition"))) ∧
        useIf pred assertsV1 m v =
          .thrown (AssertionError (some (m.getD "Failed Assertion")))) := by
  intro α pred m v
  constructor <;> intro h <;>
    simp [useIf, requires, checks, ensures, assertsV1, h]

/-- Witness for C8 at concrete inputs: `useIf isDefined requires` returns a
defined value unchanged and raises `PreconditionError` with the default
message on `null`. -/
theorem c8_useIf_witness :
    useIf isDefined requires none (JSVal.vstr "hi") = .ret (.vstr "hi") ∧
    useIf isDefined requires none JSVal.vnull =
      .thrown (PreconditionError (some "Unmet precondition")) :=
  ⟨((c8_useIf_combinator JSVal isDefined none (.vstr "hi")).1 (by decide)).1,
   ((c8_useIf_combinator JSVal isDefined none .vnull).2 (by decide)).1⟩

/-- C9: every exported function is deterministic and stateless — in any
sequence of calls, the outcome at each position is a function of that call
alone, independent of how many and which calls precede or follow it; in
particular `requires(false, 'x')` raises the same error at every position of
every trace. -/
theorem c9_deterministic_stateless :
    (∀ (pre post : List Call) (c : Call),
      (runTrace (pre ++ c :: post))[pre.length]? = some (runCall c)) ∧
    (∀ (pre post : List Call),
      (runTrace (pre ++ Call.creq false (some "x") :: post))[pre.length]? =
        some (.thrown (PreconditionError (some "x")))) := by
  have h : ∀ (pre post : List Call) (c : Call),
      (runTrace (pre ++ c :: post))[pre.length]? = some (runCall c) := by
    intro pre post c
    induction pre with
    | nil => simp [runTrace]
    | cons hd tl ih => simpa [runTrace] using ih
  refine ⟨h, fun pre post => ?_⟩
  simpa [runCall, requires, Outcome.map] using h pre post (Call.creq false (some "x"))

/-- C10 counterexample: the claim states that `error(null)` raises an
`IllegalStateError` carrying no message, identically to `error()`; in fact
the implementation passes the `null` on to the `Error` constructor, which
stringifies it, so the raised error carries the message `null` and differs
from the outcome of `error()`. -/
theorem c10_error_null_counterexample :
    error .anull none = .thrown (IllegalStateError (some "null")) ∧
    (IllegalStateError (some "null")).message ≠ none ∧
    error .anull none ≠ error .aundefined none := by
  decide

/-- C10 as amended: `error(undefined)` is treated identically to calling
with no arguments (raising `IllegalStateError` with no message), and
`error(null)` also selects the `IllegalStateError` branch via the loose null
test — never attempting to construct from the argument — but the `Error`
constructor stringifies the non-undefined argument, so the raised error
carries the message `null`; in both cases the second argument is ignored. -/
theorem c10_error_null_amended :
    (∀ m : Option String, error .aundefined m = .thrown (IllegalStateError none)) ∧
    (∀ m : Option String, error .anull m = .thrown (IllegalStateError (some "null"))) ∧
    (IllegalStateError (some "null")).name = "IllegalStateError" ∧
    (IllegalStateError (some "null")).isContractError = true :=
  ⟨fun _ => rfl, fun _ => rfl, rfl, rfl⟩

end TsCodeContracts
